import Mathlib

/-!
Shallow embedding of the sigma-serve-rs static file server (src/main.rs).

Rust `String` and `Vec<u8>` values are modelled as lists of byte values
(`List Nat`, each element < 256 in practice).  `PathBuf` is modelled as a
flag for absoluteness plus a list of components, matching Rust's component
view of Unix paths.  The filesystem is an abstract structure supplying the
two operations the server performs: `fs::canonicalize` and `fs::read`
(`fs::read_to_string` is derived from `read` plus UTF-8 validation, exactly
as Rust implements it).
-/

namespace SigmaServe

/-- Rust byte strings (`String` / `Vec<u8>`): lists of byte values. -/
abbrev RStr := List Nat

/-- Bytes of an ASCII string literal (all literals in the source are ASCII,
so code points coincide with UTF-8 bytes). -/
def asciiBytes (s : String) : RStr := s.data.map Char.toNat

/-- The `from_hex_digit` helper of the `urlencoding` crate: value of an
ASCII hex digit byte, if it is one. -/
def fromHexDigit (b : Nat) : Option Nat :=
  if 48 ≤ b ∧ b ≤ 57 then some (b - 48)
  else if 97 ≤ b ∧ b ≤ 102 then some (b - 87)
  else if 65 ≤ b ∧ b ≤ 70 then some (b - 55)
  else none

/-- `urlencoding::decode_binary`: percent-decode a byte string.  A `%`
followed by two hex digits becomes the denoted byte; malformed percent
sequences are passed through verbatim (the crate never fails on them). -/
def decodeBytes : RStr → RStr
  | [] => []
  | 37 :: a :: b :: rest2 =>
    match fromHexDigit a with
    | some hi =>
      match fromHexDigit b with
      | some lo => (16 * hi + lo) :: decodeBytes rest2
      | none => 37 :: a :: decodeBytes (b :: rest2)
    | none => 37 :: decodeBytes (a :: b :: rest2)
  | 37 :: rest => 37 :: rest
  | c :: rest => c :: decodeBytes rest

/-- A UTF-8 continuation byte (`10xxxxxx`). -/
def isContByte (b : Nat) : Bool := decide (128 ≤ b) && decide (b < 192)

/-- UTF-8 validity of a byte sequence, as checked by Rust's
`String::from_utf8` (rejecting overlong forms and surrogates). -/
def validUtf8 : RStr → Bool
  | [] => true
  | c :: rest =>
    if c < 128 then validUtf8 rest
    else if c < 194 then false
    else if c < 224 then
      match rest with
      | c1 :: rest2 => isContByte c1 && validUtf8 rest2
      | [] => false
    else if c < 240 then
      match rest with
      | c1 :: c2 :: rest2 =>
        isContByte c1 && isContByte c2 &&
        (decide (c ≠ 224) || decide (160 ≤ c1)) &&
        (decide (c ≠ 237) || decide (c1 < 160)) &&
        validUtf8 rest2
      | _ => false
    else if c < 245 then
      match rest with
      | c1 :: c2 :: c3 :: rest2 =>
        isContByte c1 && isContByte c2 && isContByte c3 &&
        (decide (c ≠ 240) || decide (144 ≤ c1)) &&
        (decide (c ≠ 244) || decide (c1 < 144)) &&
        validUtf8 rest2
      | _ => false
    else false

/-- `urlencoding::decode`: percent-decode and require the result to be
valid UTF-8; `none` models the `FromUtf8Error` failure. -/
def decode (s : RStr) : Option RStr :=
  let d := decodeBytes s
  if validUtf8 d then some d else none

/-- Rust `PathBuf` on Unix: whether the path is absolute, plus its normal
components. -/
structure RPath where
  absolute : Bool
  components : List RStr
deriving DecidableEq

/-- Components as Rust's `Path::components` iterator yields them: a `none`
marker for the root directory, then the normal components. -/
def RPath.toComponents (p : RPath) : List (Option RStr) :=
  (if p.absolute then [none] else []) ++ p.components.map some

/-- `Path::starts_with`: component-wise prefix test over the component
iterators (never a naive string prefix). -/
def RPath.startsWith (p base : RPath) : Bool :=
  base.toComponents.isPrefixOf p.toComponents

/-- `PathBuf::join` (via `push`): an absolute right operand replaces the
left path entirely; otherwise components are appended. -/
def RPath.join (p q : RPath) : RPath :=
  if q.absolute then q else ⟨p.absolute, p.components ++ q.components⟩

/-- `PathBuf::from` on a byte string: absolute iff it begins with a slash;
components are the nonempty slash-separated chunks. -/
def pathFromRStr (s : RStr) : RPath :=
  ⟨decide (s.head? = some 47), (s.splitOn 47).filter (fun c => !c.isEmpty)⟩

/-- The error kinds the server distinguishes on `fs::canonicalize`. -/
inductive IOErrorKind where
  | notFound
  | other
deriving DecidableEq

/-- Abstract filesystem: the two primitive operations the server calls. -/
structure FS where
  canonicalize : RPath → Except IOErrorKind RPath
  read : RPath → Option RStr

/-- `fs::read_to_string`: read the bytes and require valid UTF-8 (the body
used afterwards is the string's bytes, i.e. the file's bytes). -/
def FS.readToString (fs : FS) (p : RPath) : Option RStr :=
  match fs.read p with
  | some bs => if validUtf8 bs then some bs else none
  | none => none

/-- The configuration arguments the core uses (`root` already canonicalized
at startup; the bind address is irrelevant to response behaviour). -/
structure Args where
  root : RPath
  suffix : RStr

/-- The `Request` struct. -/
structure Request where
  path : RStr
  raw_path : RStr
  method : RStr

/-- The `Response` struct. -/
structure Response where
  status_code : Int
  status_message : RStr
  body : RStr
deriving DecidableEq

/-- `Response::new`. -/
def Response.new (code : Int) (msg : RStr) (body : RStr) : Response :=
  ⟨code, msg, body⟩

/-- The bytes `Response::write` sends on the socket:
`"HTTP/1.1 <code> <message>\r\nContent-Length: <len>\r\n\r\n"` followed by
the body, where `<len>` is `self.body.len()`. -/
def Response.serialize (r : Response) : RStr :=
  asciiBytes ( "HTTP/1.1 " ++ toString r.status_code ++ " ") ++ r.status_message
    ++ asciiBytes ( "\r\nContent-Length: " ++ toString r.body.length ++ "\r\n\r\n")
    ++ r.body

/-- ASCII whitespace bytes recognised by `str::split_whitespace`
(multi-byte Unicode whitespace is not modelled; request lines are ASCII). -/
def isWsByte (b : Nat) : Bool :=
  b == 32 || b == 9 || b == 10 || b == 13 || b == 11 || b == 12

/-- `str::split_whitespace`: maximal nonempty chunks between whitespace. -/
def splitWs (s : RStr) : List RStr :=
  (s.splitOnP isWsByte).filter (fun c => !c.isEmpty)

/-- `parse_request`, given the first line already read from the stream:
first whitespace token is the method (default empty), second is the raw
path (default `"/"`); the raw path is percent-decoded, failure becoming an
`InvalidData` error (modelled as `Except.error ()`). -/
def parse_request (request_line : RStr) : Except Unit Request :=
  let parts := splitWs request_line
  let method := (parts.get? 0).getD []
  let path := (parts.get? 1).getD (asciiBytes "/")
  match decode path with
  | some decoded => Except.ok ⟨decoded, path, method⟩
  | none => Except.error ()

/-- `str::strip_prefix('/')` with `unwrap_or(&request.path)`: drop one
leading slash if present. -/
def stripLeadingSlash (s : RStr) : RStr :=
  match s with
  | 47 :: rest => rest
  | _ => s

/-- Lines 156–171 of `prepare_response`: form the candidate relative path.
`"/"` maps to `index.html`; otherwise the (already decoded) path is
stripped of one leading slash, percent-decoded a second time, and the
suffix is appended; a failing second decode yields the 400 response. -/
def resolveRequested (req : Request) (args : Args) : Except Response RPath :=
  if req.path = asciiBytes "/" then
    Except.ok (pathFromRStr (asciiBytes "index.html"))
  else
    match decode (stripLeadingSlash req.path) with
    | some decoded => Except.ok (pathFromRStr (decoded ++ args.suffix))
    | none =>
      Except.error (Response.new 400 (asciiBytes "Bad Request")
        (asciiBytes "400 Bad Request"))

/-- `not_found`: 404 with the contents of `root/404.html` when
`read_to_string` succeeds, else the literal fallback body. -/
def not_found (args : Args) (fs : FS) : Response :=
  let fallback_path := args.root.join (pathFromRStr (asciiBytes "404.html"))
  match fs.readToString fallback_path with
  | some fallback => Response.new 404 (asciiBytes "Not Found") fallback
  | none => Response.new 404 (asciiBytes "Not Found") (asciiBytes "404 Not Found")

/-- `prepare_response`: 405 for non-GET; candidate path formation (with its
400 early return); `fs::canonicalize` with `NotFound` mapped to the 404
handler and other errors propagated (they become a 500 in the handler);
the containment check; then `fs::read`, any failure falling back to 404. -/
def prepare_response (req : Request) (args : Args) (fs : FS) :
    Except IOErrorKind Response :=
  if req.method ≠ asciiBytes "GET" then
    Except.ok (Response.new 405 (asciiBytes "Method Not Allowed")
      (asciiBytes "405 Method Not Allowed"))
  else
    match resolveRequested req args with
    | Except.error resp => Except.ok resp
    | Except.ok requested =>
      match fs.canonicalize (args.root.join requested) with
      | Except.error IOErrorKind.notFound => Except.ok (not_found args fs)
      | Except.error e => Except.error e
      | Except.ok full_path =>
        if !full_path.startsWith args.root then Except.ok (not_found args fs)
        else
          match fs.read full_path with
          | some contents => Except.ok (Response.new 200 (asciiBytes "Ok") contents)
          | none => Except.ok (not_found args fs)

/-- The per-connection closure in `main`, given the first request line if
one was read (`none` models `ConnectionReset`): parse errors drop the
connection silently (`none`), `prepare_response` errors become the 500
response, otherwise the prepared response is written. -/
def handle_connection (firstLine : Option RStr) (args : Args) (fs : FS) :
    Option Response :=
  match firstLine with
  | none => none
  | some line =>
    match parse_request line with
    | Except.error _ => none
    | Except.ok req =>
      match prepare_response req args fs with
      | Except.ok resp => some resp
      | Except.error _ =>
        some (Response.new 500 (asciiBytes "Internal Server Error")
          (asciiBytes "500 Internal Server Error"))

/-!
Concrete fixtures used by witness and counterexample theorems: a root
`/srv/www` with suffix `.html`, and small filesystem models.
-/

/-- The canonicalized root `/srv/www`. -/
def demoRoot : RPath := pathFromRStr (asciiBytes "/srv/www")

/-- Arguments with root `/srv/www` and the default suffix `.html`. -/
def demoArgs : Args := ⟨demoRoot, asciiBytes ".html"⟩

/-- The canonical path `/etc/passwd.html`, outside the demo root. -/
def pEtcPasswd : RPath := pathFromRStr (asciiBytes "/etc/passwd.html")

/-- The candidate relative path produced for the traversal request. -/
def tTraversal : RPath := pathFromRStr (asciiBytes "../../etc/passwd.html")

/-- A filesystem in which `/srv/www/../../etc/passwd.html` canonicalizes to
`/etc/passwd.html`, that file is readable, and nothing else exists (in
particular no `404.html`). -/
def fs1 : FS where
  canonicalize := fun p =>
    if p = demoRoot.join tTraversal then Except.ok pEtcPasswd
    else Except.error IOErrorKind.notFound
  read := fun p =>
    if p = pEtcPasswd then some (asciiBytes "root:x:0:0:root") else none

/-- The percent-encoded traversal request after parsing. -/
def reqTraversal : Request :=
  ⟨asciiBytes "/../../etc/passwd", asciiBytes "/%2e%2e%2f%2e%2e%2fetc%2fpasswd",
   asciiBytes "GET"⟩

/-- A request for a genuinely nonexistent file. -/
def reqMissing : Request :=
  ⟨asciiBytes "/missing", asciiBytes "/missing", asciiBytes "GET"⟩

/-- A root named `/root`, with a sibling directory `/root-evil`. -/
def evilRoot : RPath := pathFromRStr (asciiBytes "/root")

/-- Arguments rooted at `/root`. -/
def evilArgs : Args := ⟨evilRoot, asciiBytes ".html"⟩

/-- The canonical path `/root-evil/secret.html`, whose string form extends
the root's string form but which lies outside the root. -/
def pEvilSecret : RPath := pathFromRStr (asciiBytes "/root-evil/secret.html")

/-- The candidate relative path reaching the sibling directory. -/
def tEvil : RPath := pathFromRStr (asciiBytes "../root-evil/secret.html")

/-- A filesystem where the sibling file exists and is readable. -/
def fsEvil : FS where
  canonicalize := fun p =>
    if p = evilRoot.join tEvil then Except.ok pEvilSecret
    else Except.error IOErrorKind.notFound
  read := fun p => if p = pEvilSecret then some (asciiBytes "top secret") else none

/-- A parsed request reaching for the sibling directory. -/
def reqEvil : Request :=
  ⟨asciiBytes "/../root-evil/secret", asciiBytes "/../root-evil/secret",
   asciiBytes "GET"⟩

/-- The canonical path of a directory inside the root (reading it as a file
fails). -/
def pDir : RPath := pathFromRStr (asciiBytes "/srv/www/dir.html")

/-- A filesystem where `dir.html` exists inside the root but cannot be read
as a file, and nothing else exists. -/
def fsDir : FS where
  canonicalize := fun p =>
    if p = demoRoot.join (pathFromRStr (asciiBytes "dir.html")) then Except.ok pDir
    else Except.error IOErrorKind.notFound
  read := fun _ => none

/-- A parsed request for the unreadable target. -/
def reqDir : Request := ⟨asciiBytes "/dir", asciiBytes "/dir", asciiBytes "GET"⟩

/-- The canonical path `/srv/www/name.html`. -/
def pName : RPath := pathFromRStr (asciiBytes "/srv/www/name.html")

/-- A filesystem with a readable `name.html` inside the root. -/
def fsName : FS where
  canonicalize := fun p =>
    if p = demoRoot.join (pathFromRStr (asciiBytes "name.html")) then Except.ok pName
    else Except.error IOErrorKind.notFound
  read := fun p => if p = pName then some (asciiBytes "<h1>hello</h1>") else none

/-- A parsed `GET /name` request. -/
def reqName : Request := ⟨asciiBytes "/name", asciiBytes "/name", asciiBytes "GET"⟩

/-- A filesystem whose only file is a custom `404.html` inside the root. -/
def fs404 : FS where
  canonicalize := fun _ => Except.error IOErrorKind.notFound
  read := fun p =>
    if p = demoRoot.join (pathFromRStr (asciiBytes "404.html"))
    then some (asciiBytes "<h1>custom 404 page</h1>") else none

/-- The request obtained by parsing the raw path `/%2541`: the first decode
turns `%25` into a literal percent sign, leaving `/%41`. -/
def req2541 : Request :=
  ⟨asciiBytes "/%41", asciiBytes "/%2541", asciiBytes "GET"⟩

/-- Spec-mirror definition for the target-formation claim (written from the
claim's words, not from the source, for comparison): the candidate target
formed with the decoded path's remaining characters used as-is, i.e.
without a second percent-decode. -/
def specRequestedOnceDecoded (req : Request) (args : Args) : RPath :=
  if req.path = asciiBytes "/" then pathFromRStr (asciiBytes "index.html")
  else pathFromRStr (stripLeadingSlash req.path ++ args.suffix)

/-! Helper lemmas shared by the claim proofs. -/

theorem asciiBytes_append (s t : String) :
    asciiBytes (s ++ t) = asciiBytes s ++ asciiBytes t := by
  simp [asciiBytes]

theorem not_found_status_code (args : Args) (fs : FS) :
    (not_found args fs).status_code = 404 := by
  rcases h : fs.readToString (args.root.join (pathFromRStr (asciiBytes "404.html"))) with _ | v <;>
    simp [not_found, h, Response.new]

/-- C1: a GET request whose decoded path canonicalizes to a path outside
the configured root receives exactly the response produced for a request
whose target does not exist: both equal the same `not_found` value (status
404, same 404-fallback body selection), so no observable difference
distinguishes "exists outside root" from "does not exist". -/
theorem c1_outside_root_indistinguishable
    (fs : FS) (args : Args) (req₁ req₂ : Request) (t₁ t₂ q : RPath)
    (hm₁ : req₁.method = asciiBytes "GET") (hm₂ : req₂.method = asciiBytes "GET")
    (hr₁ : resolveRequested req₁ args = Except.ok t₁)
    (hr₂ : resolveRequested req₂ args = Except.ok t₂)
    (hc₁ : fs.canonicalize (args.root.join t₁) = Except.ok q)
    (hout : q.startsWith args.root = false)
    (hc₂ : fs.canonicalize (args.root.join t₂) = Except.error IOErrorKind.notFound) :
    prepare_response req₁ args fs = prepare_response req₂ args fs ∧
    prepare_response req₁ args fs = Except.ok (not_found args fs) ∧
    (not_found args fs).status_code = 404 := by
  have h₁ : prepare_response req₁ args fs = Except.ok (not_found args fs) := by
    simp [prepare_response, hm₁, hr₁, hc₁, hout]
  have h₂ : prepare_response req₂ args fs = Except.ok (not_found args fs) := by
    simp [prepare_response, hm₂, hr₂, hc₂]
  exact ⟨h₁.trans h₂.symm, h₁, not_found_status_code args fs⟩

/-- Witness for C1: the percent-encoded traversal request and a plain
missing-file request produce the same response on a concrete filesystem in
which `/etc/passwd.html` exists outside the root. -/
theorem c1_outside_root_indistinguishable_witness :
    prepare_response reqTraversal demoArgs fs1 = prepare_response reqMissing demoArgs fs1 ∧
    prepare_response reqTraversal demoArgs fs1 = Except.ok (not_found demoArgs fs1) ∧
    (not_found demoArgs fs1).status_code = 404 :=
  c1_outside_root_indistinguishable fs1 demoArgs reqTraversal reqMissing
    tTraversal (pathFromRStr (asciiBytes "missing.html")) pEtcPasswd
    rfl rfl rfl rfl rfl (by decide) rfl

/-- C2: the containment check is `Path::starts_with`, a component-wise
prefix test: a canonical path passes the check against the root iff the
root's component sequence is a prefix of its component sequence; the string
`/root` is a string prefix of `/root-evil/secret.html`, yet that path does
not pass the check against root `/root`, and a request resolving to it is
answered with the 404 fallback even though the file is readable. -/
theorem c2_componentwise_containment :
    (∀ q r : RPath, q.startsWith r = true ↔ r.toComponents <+: q.toComponents) ∧
    List.isPrefixOf (asciiBytes "/root") (asciiBytes "/root-evil/secret.html") = true ∧
    RPath.startsWith (pathFromRStr (asciiBytes "/root-evil/secret.html"))
      (pathFromRStr (asciiBytes "/root")) = false ∧
    prepare_response reqEvil evilArgs fsEvil = Except.ok (not_found evilArgs fsEvil) :=
  ⟨fun _ _ => List.isPrefixOf_iff_prefix, by decide, by decide, rfl⟩

/-- C3: a GET request whose (decoded) path canonicalizes to a location
outside the root is answered with status 404 and never 200, even when the
target file exists and is readable on disk. -/
theorem c3_encoded_traversal_rejected
    (fs : FS) (args : Args) (req : Request) (t q : RPath)
    (hm : req.method = asciiBytes "GET")
    (hr : resolveRequested req args = Except.ok t)
    (hc : fs.canonicalize (args.root.join t) = Except.ok q)
    (hout : q.startsWith args.root = false) :
    prepare_response req args fs = Except.ok (not_found args fs) ∧
    ∀ resp, prepare_response req args fs = Except.ok resp →
      resp.status_code = 404 ∧ resp.status_code ≠ 200 := by
  have h : prepare_response req args fs = Except.ok (not_found args fs) := by
    simp [prepare_response, hm, hr, hc, hout]
  refine ⟨h, fun resp hresp => ?_⟩
  rw [h] at hresp
  injection hresp with h2
  rw [← h2, not_found_status_code args fs]
  exact ⟨rfl, by decide⟩

/-- Witness for C3: the request line with raw path
`/%2e%2e%2f%2e%2e%2fetc%2fpasswd` decodes to a traversal, the targeted file
exists on the concrete filesystem, and the response is still the 404
fallback. -/
theorem c3_encoded_traversal_rejected_witness :
    parse_request (asciiBytes "GET /%2e%2e%2f%2e%2e%2fetc%2fpasswd HTTP/1.1") =
      Except.ok reqTraversal ∧
    fs1.read pEtcPasswd = some (asciiBytes "root:x:0:0:root") ∧
    prepare_response reqTraversal demoArgs fs1 = Except.ok (not_found demoArgs fs1) ∧
    (∀ resp, prepare_response reqTraversal demoArgs fs1 = Except.ok resp →
      resp.status_code = 404 ∧ resp.status_code ≠ 200) :=
  ⟨rfl, by decide,
   (c3_encoded_traversal_rejected fs1 demoArgs reqTraversal tTraversal pEtcPasswd
     rfl rfl rfl (by decide)).1,
   (c3_encoded_traversal_rejected fs1 demoArgs reqTraversal tTraversal pEtcPasswd
     rfl rfl rfl (by decide)).2⟩

/-- C4 counterexample: the claim says the decoded path's remaining
characters are used as-is (decoded at most once), but the code decodes a
second time: for raw path `/%2541` the parsed (once-decoded) path is
`/%41`, the code's candidate target is `A.html`, while the claimed
once-decoded target is `%41.html`; the two differ. -/
theorem c4_counterexample :
    parse_request (asciiBytes "GET /%2541 HTTP/1.1") = Except.ok req2541 ∧
    resolveRequested req2541 demoArgs = Except.ok (pathFromRStr (asciiBytes "A.html")) ∧
    specRequestedOnceDecoded req2541 demoArgs = pathFromRStr (asciiBytes "%41.html") ∧
    resolveRequested req2541 demoArgs ≠
      Except.ok (specRequestedOnceDecoded req2541 demoArgs) := by
  refine ⟨rfl, rfl, rfl, fun h => ?_⟩
  injection h with h2
  exact absurd h2 (by decide)

/-- C4 amended: for every GET request, the candidate target is
`root/index.html` (no suffix) when the decoded path is `"/"`; otherwise one
leading slash is stripped and the remainder is percent-decoded a second
time before the suffix is appended, so a literal percent sequence
surviving the first decode is decoded again. -/
theorem c4_target_formation (req : Request) (args : Args) :
    (req.path = asciiBytes "/" →
      resolveRequested req args = Except.ok (pathFromRStr (asciiBytes "index.html"))) ∧
    (∀ d, req.path ≠ asciiBytes "/" → decode (stripLeadingSlash req.path) = some d →
      resolveRequested req args = Except.ok (pathFromRStr (d ++ args.suffix))) := by
  constructor
  · intro h
    simp [resolveRequested, h]
  · intro d h hd
    simp [resolveRequested, h, hd]

/-- Witness for the amended C4 at the root path and at the twice-decoded
path `/%2541`. -/
theorem c4_target_formation_witness :
    resolveRequested ⟨asciiBytes "/", asciiBytes "/", asciiBytes "GET"⟩ demoArgs =
      Except.ok (pathFromRStr (asciiBytes "index.html")) ∧
    resolveRequested req2541 demoArgs =
      Except.ok (pathFromRStr (asciiBytes "A" ++ demoArgs.suffix)) :=
  ⟨(c4_target_formation ⟨asciiBytes "/", asciiBytes "/", asciiBytes "GET"⟩ demoArgs).1 rfl,
   (c4_target_formation req2541 demoArgs).2 (asciiBytes "A") (by decide) (by decide)⟩

/-- C5: the not-found handler always has status 404; its body is the bytes
of `root/404.html` when that read (`read_to_string`) succeeds, and the
literal text `404 Not Found` on any read failure. -/
theorem c5_fallback_selection (args : Args) (fs : FS) :
    (not_found args fs).status_code = 404 ∧
    (∀ bs, fs.readToString (args.root.join (pathFromRStr (asciiBytes "404.html"))) = some bs →
      (not_found args fs).body = bs) ∧
    (fs.readToString (args.root.join (pathFromRStr (asciiBytes "404.html"))) = none →
      (not_found args fs).body = asciiBytes "404 Not Found") := by
  refine ⟨not_found_status_code args fs, fun bs h => ?_, fun h => ?_⟩
  · simp [not_found, h, Response.new]
  · simp [not_found, h, Response.new]

/-- Witness for C5 on a filesystem with a custom `404.html` and on one
without it. -/
theorem c5_fallback_selection_witness :
    (not_found demoArgs fs404).status_code = 404 ∧
    (not_found demoArgs fs404).body = asciiBytes "<h1>custom 404 page</h1>" ∧
    (not_found demoArgs fs1).status_code = 404 ∧
    (not_found demoArgs fs1).body = asciiBytes "404 Not Found" :=
  ⟨(c5_fallback_selection demoArgs fs404).1,
   (c5_fallback_selection demoArgs fs404).2.1 (asciiBytes "<h1>custom 404 page</h1>")
     (by decide),
   (c5_fallback_selection demoArgs fs1).1,
   (c5_fallback_selection demoArgs fs1).2.2 (by decide)⟩

/-- C6: when the canonical path is inside the root but the file read
fails, the response is exactly the same not-found handling as for a
nonexistent path, with status 404 and never 500. -/
theorem c6_read_failure_is_not_found
    (fs : FS) (args : Args) (req req' : Request) (t t' q : RPath)
    (hm : req.method = asciiBytes "GET")
    (hr : resolveRequested req args = Except.ok t)
    (hc : fs.canonicalize (args.root.join t) = Except.ok q)
    (hin : q.startsWith args.root = true)
    (hread : fs.read q = none)
    (hm' : req'.method = asciiBytes "GET")
    (hr' : resolveRequested req' args = Except.ok t')
    (hc' : fs.canonicalize (args.root.join t') = Except.error IOErrorKind.notFound) :
    prepare_response req args fs = Except.ok (not_found args fs) ∧
    prepare_response req args fs = prepare_response req' args fs ∧
    ∀ resp, prepare_response req args fs = Except.ok resp →
      resp.status_code = 404 ∧ resp.status_code ≠ 500 := by
  have h : prepare_response req args fs = Except.ok (not_found args fs) := by
    simp [prepare_response, hm, hr, hc, hin, hread]
  have h' : prepare_response req' args fs = Except.ok (not_found args fs) := by
    simp [prepare_response, hm', hr', hc']
  refine ⟨h, h.trans h'.symm, fun resp hresp => ?_⟩
  rw [h] at hresp
  injection hresp with h2
  rw [← h2, not_found_status_code args fs]
  exact ⟨rfl, by decide⟩

/-- Witness for C6: a directory inside the root (unreadable as a file)
gives the same response as a missing file on a concrete filesystem. -/
theorem c6_read_failure_is_not_found_witness :
    prepare_response reqDir demoArgs fsDir = Except.ok (not_found demoArgs fsDir) ∧
    prepare_response reqDir demoArgs fsDir = prepare_response reqMissing demoArgs fsDir ∧
    (∀ resp, prepare_response reqDir demoArgs fsDir = Except.ok resp →
      resp.status_code = 404 ∧ resp.status_code ≠ 500) :=
  c6_read_failure_is_not_found fsDir demoArgs reqDir reqMissing
    (pathFromRStr (asciiBytes "dir.html")) (pathFromRStr (asciiBytes "missing.html")) pDir
    rfl rfl rfl (by decide) (by decide) rfl rfl rfl

/-- C7 counterexample: for the request line `GET /%FF HTTP/1.1` the path
fails percent-decoding (the decoded byte 255 is not valid UTF-8), and the
server produces no response at all — the connection is dropped silently,
not answered with 400 as the claim states. -/
theorem c7_counterexample :
    decode (asciiBytes "/%FF") = none ∧
    handle_connection (some (asciiBytes "GET /%FF HTTP/1.1")) demoArgs fs1 = none :=
  ⟨rfl, rfl⟩

/-- C7 amended: a path that fails percent-decoding in request parsing
causes the connection to be dropped silently (no response, and in
particular no 500 server fault); a failure of the second decode inside
response preparation is surfaced as a 400 Bad Request response. -/
theorem c7_decode_failure_handling (fs : FS) (args : Args) (line : RStr) :
    (parse_request line = Except.error () →
      handle_connection (some line) args fs = none) ∧
    (∀ req : Request, req.method = asciiBytes "GET" → req.path ≠ asciiBytes "/" →
      decode (stripLeadingSlash req.path) = none →
      prepare_response req args fs =
        Except.ok (Response.new 400 (asciiBytes "Bad Request")
          (asciiBytes "400 Bad Request"))) := by
  constructor
  · intro h
    simp [handle_connection, h]
  · intro req hm hp hd
    simp [prepare_response, resolveRequested, hm, hp, hd]

/-- Witness for the amended C7: the raw path `/%FF` drops the connection,
and a request whose once-decoded path `/%FF` fails the second decode gets
the 400 response. -/
theorem c7_decode_failure_handling_witness :
    handle_connection (some (asciiBytes "GET /%FF HTTP/1.1")) demoArgs fs1 = none ∧
    prepare_response ⟨asciiBytes "/%FF", asciiBytes "/%25FF", asciiBytes "GET"⟩ demoArgs fs1 =
      Except.ok (Response.new 400 (asciiBytes "Bad Request") (asciiBytes "400 Bad Request")) :=
  ⟨(c7_decode_failure_handling fs1 demoArgs
      (asciiBytes "GET /%FF HTTP/1.1")).1 rfl,
   (c7_decode_failure_handling fs1 demoArgs (asciiBytes "")).2
     ⟨asciiBytes "/%FF", asciiBytes "/%25FF", asciiBytes "GET"⟩ rfl (by decide) (by decide)⟩

/-- C8: any request whose method token is not exactly `GET` is answered
with status 405 and the fixed body, whatever the path and whatever the
filesystem state. -/
theorem c8_non_get_is_405 (fs : FS) (args : Args) (req : Request)
    (h : req.method ≠ asciiBytes "GET") :
    prepare_response req args fs =
      Except.ok (Response.new 405 (asciiBytes "Method Not Allowed")
        (asciiBytes "405 Method Not Allowed")) := by
  unfold prepare_response
  rw [if_pos h]

/-- Witness for C8: `POST /anything` yields 405 on a concrete filesystem. -/
theorem c8_non_get_is_405_witness :
    prepare_response ⟨asciiBytes "/anything", asciiBytes "/anything", asciiBytes "POST"⟩
      demoArgs fs1 =
      Except.ok (Response.new 405 (asciiBytes "Method Not Allowed")
        (asciiBytes "405 Method Not Allowed")) :=
  c8_non_get_is_405 fs1 demoArgs
    ⟨asciiBytes "/anything", asciiBytes "/anything", asciiBytes "POST"⟩ (by decide)

/-- C9: a GET for `/name` with a readable `name.html` inside the root is
answered 200 with exactly the file's bytes, and the serialized output is
`HTTP/1.1 <code> <message>\r\nContent-Length: <len>\r\n\r\n<body>` with
the length field equal to the byte length of the body. -/
theorem c9_serialization_roundtrip
    (fs : FS) (args : Args) (req : Request) (q : RPath) (contents : RStr)
    (hm : req.method = asciiBytes "GET")
    (hp : req.path = asciiBytes "/name")
    (hs : args.suffix = asciiBytes ".html")
    (hc : fs.canonicalize (args.root.join (pathFromRStr (asciiBytes "name.html"))) =
      Except.ok q)
    (hin : q.startsWith args.root = true)
    (hread : fs.read q = some contents) :
    prepare_response req args fs =
      Except.ok (Response.new 200 (asciiBytes "Ok") contents) ∧
    (Response.new 200 (asciiBytes "Ok") contents).serialize =
      asciiBytes "HTTP/1.1 200 Ok\r\nContent-Length: " ++
        asciiBytes (toString contents.length) ++ asciiBytes "\r\n\r\n" ++ contents ∧
    ∀ resp : Response, resp.serialize =
      asciiBytes ( "HTTP/1.1 " ++ toString resp.status_code ++ " ") ++ resp.status_message ++
        asciiBytes ( "\r\nContent-Length: " ++ toString resp.body.length ++ "\r\n\r\n") ++
        resp.body := by
  have hres : resolveRequested req args = Except.ok (pathFromRStr (asciiBytes "name.html")) := by
    unfold resolveRequested
    rw [hp, hs]
    rfl
  refine ⟨?_, ?_, fun resp => rfl⟩
  · simp [prepare_response, hm, hres, hc, hin, hread]
  · show asciiBytes ( "HTTP/1.1 " ++ toString (200 : Int) ++ " ") ++ asciiBytes "Ok" ++
        asciiBytes ( "\r\nContent-Length: " ++ toString contents.length ++ "\r\n\r\n") ++
        contents = _
    rw [asciiBytes_append ( "\r\nContent-Length: " ++ toString contents.length) "\r\n\r\n",
      asciiBytes_append "\r\nContent-Length: " (toString contents.length)]
    have e₁ : asciiBytes ( "HTTP/1.1 " ++ toString (200 : Int) ++ " ") ++ asciiBytes "Ok" ++
        asciiBytes "\r\nContent-Length: " =
        asciiBytes "HTTP/1.1 200 Ok\r\nContent-Length: " := by decide
    rw [← e₁]
    simp [List.append_assoc]

/-- Witness for C9 with a concrete file `name.html` containing
`<h1>hello</h1>`. -/
theorem c9_serialization_roundtrip_witness :
    prepare_response reqName demoArgs fsName =
      Except.ok (Response.new 200 (asciiBytes "Ok") (asciiBytes "<h1>hello</h1>")) ∧
    (Response.new 200 (asciiBytes "Ok") (asciiBytes "<h1>hello</h1>")).serialize =
      asciiBytes "HTTP/1.1 200 Ok\r\nContent-Length: " ++
        asciiBytes (toString (asciiBytes "<h1>hello</h1>").length) ++
        asciiBytes "\r\n\r\n" ++ asciiBytes "<h1>hello</h1>" ∧
    ∀ resp : Response, resp.serialize =
      asciiBytes ( "HTTP/1.1 " ++ toString resp.status_code ++ " ") ++ resp.status_message ++
        asciiBytes ( "\r\nContent-Length: " ++ toString resp.body.length ++ "\r\n\r\n") ++
        resp.body :=
  c9_serialization_roundtrip fsName demoArgs reqName pName (asciiBytes "<h1>hello</h1>")
    rfl rfl rfl rfl (by decide) rfl

/-- C10: a connection whose first line contains no whitespace-separated
tokens parses successfully with empty method and path `/`, and since the
empty method is not `GET` the server responds 405 Method Not Allowed
rather than 400 or dropping the connection. -/
theorem c10_tokenless_line_is_405 (fs : FS) (args : Args) (line : RStr)
    (h : splitWs line = []) :
    parse_request line = Except.ok ⟨asciiBytes "/", asciiBytes "/", asciiBytes ""⟩ ∧
    handle_connection (some line) args fs =
      some (Response.new 405 (asciiBytes "Method Not Allowed")
        (asciiBytes "405 Method Not Allowed")) := by
  have hp : parse_request line = Except.ok ⟨asciiBytes "/", asciiBytes "/", asciiBytes ""⟩ := by
    unfold parse_request
    rw [h]
    rfl
  have hpr : prepare_response ⟨asciiBytes "/", asciiBytes "/", asciiBytes ""⟩ args fs =
      Except.ok (Response.new 405 (asciiBytes "Method Not Allowed")
        (asciiBytes "405 Method Not Allowed")) := by
    unfold prepare_response
    rw [if_pos (by decide)]
  refine ⟨hp, ?_⟩
  simp [handle_connection, hp, hpr]

/-- Witness for C10 at the empty request line. -/
theorem c10_tokenless_line_is_405_witness :
    parse_request (asciiBytes "") =
      Except.ok ⟨asciiBytes "/", asciiBytes "/", asciiBytes ""⟩ ∧
    handle_connection (some (asciiBytes "")) demoArgs fs1 =
      some (Response.new 405 (asciiBytes "Method Not Allowed")
        (asciiBytes "405 Method Not Allowed")) :=
  c10_tokenless_line_is_405 fs1 demoArgs (asciiBytes "") (by decide)

end SigmaServe
